import Mathlib

/-!
Verification development for the SAS benchmark repository.

Shallow embedding of:
- `SASViyaAuth.get_valid_access_token` / `_refresh_access_token` (sas_auth.py)
- `SASJobExecutionClient.get_job_state` / `wait_for_job_completion` (sas_auth.py)
- `SASEnvironmentBenchmark.run_casl_cas` polling loop, `run_base_local`,
  `run_iteration_benchmark`, `run_all_benchmarks`, `update_iteration_count`,
  `backup_setup_file`, `restore_setup_file` (sas_environment_benchmark.py)
- `submit_local_sas_program` (sas_base_casl_comparision.py)

Time is modelled as integer seconds; HTTP traffic as explicit response values.
-/

/-- ASCII lowercasing, modelling Python's `str.lower()` on the state strings. -/
def pyLower (s : String) : String := String.mk (s.data.map Char.toLower)

/-- Model of the token dictionary held in `SASViyaAuth.tokens`.  An empty
dictionary is modelled as `none` at use sites (`if not self.tokens`). -/
structure Tokens where
  access_token : Option String := none
  refresh_token : Option String := none
  expires_at : Option Int := none
deriving DecidableEq, Repr

/-- Fields of the JSON body a successful refresh returns; a `none` field means
the key is absent from the response. -/
structure TokenPatch where
  access_token : Option String := none
  refresh_token : Option String := none
  expires_in : Option Int := none
deriving DecidableEq, Repr

/-- Dictionary-update semantics of `self.tokens.update(new_tokens)`: a key
present in the patch replaces the old value, an absent key keeps it. -/
def orKeep (newv old : Option α) : Option α :=
  match newv with
  | some v => some v
  | none => old

/-- Outcome of the HTTP POST to the token endpoint during a refresh. -/
inductive RefreshResp
  | ok (p : TokenPatch)
  | httpErr (code : Nat)
  | netError
deriving DecidableEq, Repr

/-- Token merge performed by `_refresh_access_token` on a 200 response:
`tokens.update(new_tokens)` followed by recomputing `expires_at` from
`expires_in` when that key is present. -/
def applyRefresh (tk : Tokens) (now : Int) (p : TokenPatch) : Tokens :=
  { access_token := orKeep p.access_token tk.access_token
    refresh_token := orKeep p.refresh_token tk.refresh_token
    expires_at :=
      match p.expires_in with
      | some d => some (now + d)
      | none => tk.expires_at }

/-- `SASViyaAuth._refresh_access_token`.  Returns the updated token dictionary,
or `none` when the method raises (no refresh token, non-200 status, or network
error), together with the number of HTTP refresh requests actually issued. -/
def refresh_access_token (tk : Tokens) (now : Int) (resp : RefreshResp) :
    Option Tokens × Nat :=
  match tk.refresh_token with
  | none => (none, 0)
  | some _ =>
    match resp with
    | .ok p => (some (applyRefresh tk now p), 1)
    | .httpErr _ => (none, 1)
    | .netError => (none, 1)

/-- `SASViyaAuth.get_valid_access_token`.  Input is the current token cache
(`none` models the empty dictionary), the current time and the token
endpoint's answer should a refresh be attempted.  Output is the token cache
after the call, the returned value (`none` models Python's `None`), and the
number of refresh HTTP requests issued. -/
def get_valid_access_token (st : Option Tokens) (now : Int) (resp : RefreshResp) :
    Option Tokens × Option String × Nat :=
  match st with
  | none => (none, none, 0)
  | some tk =>
    match tk.expires_at with
    | some exp =>
      if exp - 300 ≤ now then
        match refresh_access_token tk now resp with
        | (some tk2, c) => (some tk2, tk2.access_token, c)
        | (none, c) => (some tk, none, c)
      else
        (some tk, tk.access_token, 0)
    | none => (some tk, tk.access_token, 0)

/-- JSON body of a job-status response; absent keys are `none`. -/
structure JobData where
  state : Option String := none
  status : Option String := none
  elapsedTime : Option Nat := none
  payload : Nat := 0
deriving DecidableEq, Repr

/-- State extraction `job_info.get('state', job_info.get('status', 'unknown')).lower()`. -/
def JobData.extractState (jd : JobData) : String :=
  pyLower (jd.state.getD (jd.status.getD "unknown"))

/-- One HTTP GET outcome on a status endpoint: a response with a status code
and JSON body, or a raised `requests` exception. -/
inductive HttpResp
  | resp (code : Nat) (body : JobData)
  | netError
deriving DecidableEq, Repr

/-- `SASJobExecutionClient.get_job_state` (sas_auth.py): walk the fixed list of
endpoint URL patterns; 200 yields the extracted state, 404 and network errors
move on to the next pattern, any other status breaks out of the loop, and the
fallthrough result is the string "unknown". -/
def get_job_state : List HttpResp → String
  | [] => "unknown"
  | .netError :: rest => get_job_state rest
  | .resp s body :: rest =>
    if s == 200 then body.extractState
    else if s == 404 then get_job_state rest
    else "unknown"

/-- Terminal states recognised by `wait_for_job_completion`. -/
def waitTerminal (s : String) : Bool :=
  s == "completed" || s == "failed" || s == "canceled" || s == "cancelled"

/-- Inner endpoint scan of one round of `wait_for_job_completion`: a 200 body
in a terminal state is returned; a 200 body in a non-terminal state or any
other non-404 status ends the round; 404 and network errors try the next
endpoint. -/
def scanEndpoints : List HttpResp → Option JobData
  | [] => none
  | .netError :: rest => scanEndpoints rest
  | .resp s body :: rest =>
    if s == 200 then (if waitTerminal body.extractState then some body else none)
    else if s == 404 then scanEndpoints rest
    else none

/-- Responses of the three endpoint patterns at poll round `k`; the network is
a function of the round and of the endpoint index. -/
def mkRound (net : Nat → Nat → HttpResp) (k : Nat) : List HttpResp :=
  [net k 0, net k 1, net k 2]

/-- Bounded polling loop of `wait_for_job_completion`: each round scans the
endpoints and either returns a terminal body (annotated with the elapsed
milliseconds, 2000 per round since the loop sleeps 2 seconds) or sleeps and
retries.  Returns the terminal body if one was observed and the number of poll
rounds executed. -/
def waitLoop (net : Nat → Nat → HttpResp) : Nat → Nat → Option JobData × Nat
  | 0, _ => (none, 0)
  | fuel + 1, round =>
    match scanEndpoints (mkRound net round) with
    | some body => (some { body with elapsedTime := some (2000 * round) }, 1)
    | none =>
      let r := waitLoop net fuel (round + 1)
      (r.1, r.2 + 1)

/-- Number of loop rounds of `wait_for_job_completion`: polls happen at times
0, 2, 4, ... seconds and the guard is `elapsed < timeout`, so the loop runs
for every round `k` with `2 * k < timeout`. -/
def waitRounds (timeout : Nat) : Nat := (timeout + 1) / 2

/-- `SASJobExecutionClient.wait_for_job_completion` (sas_auth.py): run the
bounded loop; if it ends without a terminal state, perform one more GET of the
first endpoint pattern and return its JSON body if the status is 200, else the
empty dictionary (modelled as `none`).  Also returns the total number of poll
rounds, the final post-deadline attempt included. -/
def wait_for_job_completion (net : Nat → Nat → HttpResp) (timeout : Nat) :
    Option JobData × Nat :=
  match waitLoop net (waitRounds timeout) 0 with
  | (some body, c) => (some body, c)
  | (none, c) =>
    match net (waitRounds timeout) 0 with
    | .resp s body => (if s == 200 then some body else none, c + 1)
    | .netError => (none, c + 1)

/-- Terminal states recognised by the polling loop in `run_casl_cas`. -/
def caslTerminal (s : String) : Bool :=
  s == "completed" || s == "failed" || s == "cancelled"

/-- Polling loop of `run_casl_cas` (sas_environment_benchmark.py): poll
`get_job_state` each round; `completed` yields the round index (elapsed time
in poll intervals), `failed` and `cancelled` yield `none`; otherwise sleep and
retry; running out of rounds (the timeout) yields `none` with no further poll.
Second component counts the polls performed. -/
def caslLoop (states : Nat → String) : Nat → Nat → Option Nat × Nat
  | 0, _ => (none, 0)
  | fuel + 1, round =>
    let s := states round
    if s == "completed" then (some round, 1)
    else if s == "failed" || s == "cancelled" then (none, 1)
    else
      let r := caslLoop states fuel (round + 1)
      (r.1, r.2 + 1)

/-- Poll-loop portion of `run_casl_cas`: polls at times `interval * k` under
the guard `elapsed < timeout`, hence `ceil (timeout / interval)` rounds; the
result is the elapsed seconds on completion, `none` on failure, cancellation
or timeout, paired with the number of polls performed (none of which happen
after the deadline). -/
def run_casl_cas_poll (states : Nat → String) (timeout interval : Nat) :
    Option Nat × Nat :=
  let r := caslLoop states ((timeout + interval - 1) / interval) 0
  (r.1.map (fun k => k * interval), r.2)

/-- Candidate SAS executable paths probed by `run_base_local`, in order. -/
def sas_paths : List String :=
  ["C:\\Program Files\\SASHome\\SASFoundation\\9.4\\sas.exe",
   "C:\\Program Files\\SAS\\SASFoundation\\9.4\\sas.exe",
   "C:\\Program Files (x86)\\SASHome\\SASFoundation\\9.4\\sas.exe",
   "C:\\SAS9.4\\sas.exe"]

/-- Executable resolution of `run_base_local`: the first candidate path that
exists, else the bare command name `"sas"` left to the OS search path. -/
def findSasExe (pathExists : String → Bool) : String :=
  (sas_paths.find? pathExists).getD "sas"

/-- Outcome of launching the subprocess: it finished with an exit code, the
30-minute wall-clock limit expired, or launching itself raised (for instance
`FileNotFoundError` when the executable cannot be resolved). -/
inductive ExecOutcome
  | finished (returncode : Int)
  | timedOut
  | launchError
deriving DecidableEq, Repr

/-- `SASEnvironmentBenchmark.run_base_local`: resolve the executable, run it,
and return the elapsed seconds on exit code 0; a non-zero exit code, a timeout
and a launch failure are all caught and reported as `none`. -/
def run_base_local (pathExists : String → Bool) (launch : String → ExecOutcome)
    (elapsed : Nat) : Option Nat :=
  match launch (findSasExe pathExists) with
  | .finished rc => if rc == 0 then some elapsed else none
  | .timedOut => none
  | .launchError => none

/-- The single hardcoded executable path used by `submit_local_sas_program`. -/
def mainSasExe : String := "C:\\Program Files\\SASHome\\SASFoundation\\9.4\\sas.exe"

/-- Program file run by the local driver. -/
def localProgramFile : String := "programs/base_local_simulation.sas"

/-- Exceptions `submit_local_sas_program` can raise. -/
inductive LocalError
  | fileNotFound (path : String)
  | timeoutError
  | calledProcessError (rc : Int)
  | otherError
deriving DecidableEq, Repr

/-- Result dictionary built by `submit_local_sas_program` on success. -/
structure LocalResult where
  state : String
  elapsedTime : Nat
  returncode : Int
deriving DecidableEq, Repr

/-- `submit_local_sas_program` (sas_base_casl_comparision.py): check that the
program file and the single hardcoded executable path exist (raising
`FileNotFoundError` otherwise), run the program, raise `TimeoutError` on the
wall-clock limit, raise `CalledProcessError` on a non-zero exit code, and
return a completed result dictionary on exit code 0. -/
def submit_local_sas_program (pathExists : String → Bool)
    (launch : String → ExecOutcome) (elapsedMs : Nat) :
    Except LocalError LocalResult :=
  if !pathExists localProgramFile then .error (.fileNotFound localProgramFile)
  else if !pathExists mainSasExe then .error (.fileNotFound mainSasExe)
  else
    match launch mainSasExe with
    | .finished rc =>
      if rc != 0 then .error (.calledProcessError rc)
      else .ok ⟨"completed", elapsedMs, rc⟩
    | .timedOut => .error .timeoutError
    | .launchError => .error .otherError

/-- The three benchmark environments. -/
inductive Env
  | casl
  | viya
  | local
deriving DecidableEq, Repr

/-- Outcome of one driver task of a trial as seen by `future.result()`:
either the driver returned a value (`none` meaning it failed internally and
returned Python `None`) or the task raised. -/
inductive TaskOutcome
  | value (v : Option Nat)
  | raised
deriving DecidableEq, Repr

/-- Builds the per-trial outcome assignment from three task outcomes. -/
def outcomesOf (a b c : TaskOutcome) : Env → TaskOutcome
  | .casl => a
  | .viya => b
  | .local => c

/-- Result map built by `SASEnvironmentBenchmark.run_iteration_benchmark`:
each driver's future is collected independently; a raised future is caught
and recorded as `None`, a returned value is recorded as-is. -/
def run_iteration_benchmark (out : Env → TaskOutcome) : Env → Option Nat :=
  fun e =>
    match out e with
    | .value v => v
    | .raised => none

/-- Per-environment result lists accumulated by `run_all_benchmarks` across
trials: trial `i` appends `times.get(env)` of trial `i`'s result map. -/
def benchmark_results (iters : List Nat) (out : Nat → Env → TaskOutcome) :
    Env → List (Option Nat) :=
  fun e => (List.range iters.length).map (fun i => run_iteration_benchmark (out i) e)

/-- Whitespace class of Python's regex `\s` (ASCII). -/
def isPySpace (c : Char) : Bool :=
  c == ' ' || c == '\t' || c == '\n' || c == '\r' ||
    c == Char.ofNat 11 || c == Char.ofNat 12

/-- Digit class of Python's regex `\d` (ASCII). -/
def isPyDigit (c : Char) : Bool := '0' ≤ c && c ≤ '9'

/-- Consume an exact literal from the front of the input, returning the rest. -/
def dropLit : List Char → List Char → Option (List Char)
  | [], cs => some cs
  | _ :: _, [] => none
  | l :: ls, c :: cs => if c == l then dropLit ls cs else none

/-- Longest prefix satisfying a predicate plus the remainder. -/
def spanP (p : Char → Bool) : List Char → List Char × List Char
  | [] => ([], [])
  | c :: cs =>
    if p c then
      let r := spanP p cs
      (c :: r.1, r.2)
    else ([], c :: cs)

/-- Match the regex `(%let\s+iter\s*=\s*)\d+(\s*;)` at the start of the input.
Every character class boundary in the pattern is disjoint from its successor
literal, so maximal munch is exact for Python's backtracking semantics.  On
success returns the first capture group, the digit run, the second capture
group and the unconsumed rest. -/
def matchIterAt (cs : List Char) : Option (List Char × List Char × List Char × List Char) :=
  match dropLit "%let".data cs with
  | none => none
  | some cs1 =>
    if (spanP isPySpace cs1).1.isEmpty then none
    else
      match dropLit "iter".data (spanP isPySpace cs1).2 with
      | none => none
      | some cs3 =>
        match (spanP isPySpace cs3).2 with
        | '=' :: cs5 =>
          if (spanP isPyDigit (spanP isPySpace cs5).2).1.isEmpty then none
          else
            match (spanP isPySpace (spanP isPyDigit (spanP isPySpace cs5).2).2).2 with
            | ';' :: cs9 =>
              some ("%let".data ++ (spanP isPySpace cs1).1 ++ "iter".data ++
                      (spanP isPySpace cs3).1 ++ ['='] ++ (spanP isPySpace cs5).1,
                    (spanP isPyDigit (spanP isPySpace cs5).2).1,
                    (spanP isPySpace (spanP isPyDigit (spanP isPySpace cs5).2).2).1 ++ [';'],
                    cs9)
            | _ => none
        | _ => none

theorem dropLit_length {l cs cs' : List Char} (h : dropLit l cs = some cs') :
    cs'.length ≤ cs.length := by
  induction l generalizing cs with
  | nil =>
    simp [dropLit] at h
    simp [h]
  | cons x xs ih =>
    cases cs with
    | nil => simp [dropLit] at h
    | cons c cs =>
      simp only [dropLit] at h
      split at h
      · exact Nat.le_succ_of_le (ih h)
      · exact absurd h (by simp)

theorem spanP_snd_length (p : Char → Bool) (cs : List Char) :
    (spanP p cs).2.length ≤ cs.length := by
  induction cs with
  | nil => simp [spanP]
  | cons c cs ih =>
    simp only [spanP]
    split
    · exact Nat.le_succ_of_le ih
    · simp

theorem matchIterAt_rest_length {cs g1 d g2 rest : List Char}
    (h : matchIterAt cs = some (g1, d, g2, rest)) : rest.length < cs.length := by
  unfold matchIterAt at h
  split at h
  · exact absurd h (by simp)
  · rename_i cs1 h1
    have hl1 : cs1.length ≤ cs.length := dropLit_length h1
    split at h
    · exact absurd h (by simp)
    · have hs1 : (spanP isPySpace cs1).2.length ≤ cs1.length := spanP_snd_length _ _
      split at h
      · exact absurd h (by simp)
      · rename_i cs3 h3
        have hl3 : cs3.length ≤ (spanP isPySpace cs1).2.length := dropLit_length h3
        have hs2 : (spanP isPySpace cs3).2.length ≤ cs3.length := spanP_snd_length _ _
        split at h
        · rename_i cs5 h5
          have hc5 : cs5.length < (spanP isPySpace cs3).2.length := by
            rw [h5]; simp
          have hs3 : (spanP isPySpace cs5).2.length ≤ cs5.length := spanP_snd_length _ _
          have hs4 : (spanP isPyDigit (spanP isPySpace cs5).2).2.length ≤
              (spanP isPySpace cs5).2.length := spanP_snd_length _ _
          split at h
          · exact absurd h (by simp)
          · have hs5 : (spanP isPySpace (spanP isPyDigit (spanP isPySpace cs5).2).2).2.length ≤
                (spanP isPyDigit (spanP isPySpace cs5).2).2.length := spanP_snd_length _ _
            split at h
            · rename_i cs9 h9
              have hc9 : cs9.length <
                  (spanP isPySpace (spanP isPyDigit (spanP isPySpace cs5).2).2).2.length := by
                rw [h9]; simp
              have hrest : rest = cs9 := by
                simp only [Option.some.injEq, Prod.mk.injEq] at h
                exact h.2.2.2.symm
              subst hrest
              omega
            · exact absurd h (by simp)
        · exact absurd h (by simp)

/-- Model of `re.sub(pattern, replacement, content)` in
`update_iteration_count`: scan left to right; at a match emit the first
capture group, the replacement digits and the second capture group, then
continue after the match; otherwise keep the character and advance by one. -/
def subIter (new : List Char) : List Char → List Char
  | [] => []
  | c :: rest =>
    match h : matchIterAt (c :: rest) with
    | some (g1, _, g2, rest2) => g1 ++ new ++ g2 ++ subIter new rest2
    | none => c :: subIter new rest
termination_by cs => cs.length
decreasing_by
  · exact matchIterAt_rest_length h
  · simp

/-- Whether the pattern matches anywhere in the content. -/
def hasMatch : List Char → Bool
  | [] => false
  | c :: rest => (matchIterAt (c :: rest)).isSome || hasMatch rest

/-- File-system fragment the orchestrator touches: the content of
`config/setup.sas` and of its backup file (`none` when absent). -/
structure FS where
  setup : List Char
  backup : Option (List Char)
deriving DecidableEq, Repr

/-- `SASEnvironmentBenchmark.backup_setup_file`: copy the setup content into
the backup file. -/
def backup_setup_file (fs : FS) : FS := { fs with backup := some fs.setup }

/-- `SASEnvironmentBenchmark.restore_setup_file`: if the backup file exists,
copy it back over the setup file and remove it; otherwise do nothing. -/
def restore_setup_file (fs : FS) : FS :=
  match fs.backup with
  | some c => { setup := c, backup := none }
  | none => fs

/-- `SASEnvironmentBenchmark.update_iteration_count`: rewrite the number in
the `%let iter = <number>;` assignment in place via `re.sub`. -/
def update_iteration_count (n : Nat) (fs : FS) : FS :=
  { fs with setup := subIter (toString n).data fs.setup }

/-- `SASEnvironmentBenchmark.run_all_benchmarks`.  The body backs the setup
file up once at start, then mutates it once per trial; `failAfter = some k`
models an unhandled exception escaping the `try` body after `k` trial
mutations (`k = 0` covers an authentication failure), `none` a normal finish.
The `finally` clause always runs `restore_setup_file` before the function
returns or the exception propagates; the boolean reports a normal finish. -/
def run_all_benchmarks (iters : List Nat) (failAfter : Option Nat) (fs0 : FS) :
    FS × Bool :=
  ((match failAfter with
    | none => iters
    | some k => iters.take k).foldl
      (fun f n => update_iteration_count n f) (backup_setup_file fs0)
    |> restore_setup_file,
   failAfter.isNone)

/-- Shared state of `SASViyaAuth` as seen by concurrently polling driver
tasks: the token dictionary plus a counter of refresh HTTP requests issued. -/
structure Shared where
  st : Option Tokens
  count : Nat
deriving DecidableEq, Repr

/-- Program counter of one caller inside `get_valid_access_token`: about to
perform the expiry check, about to perform the refresh request it decided on,
or done. -/
inductive PC
  | start
  | refreshing
  | done
deriving DecidableEq, Repr

/-- One interleaving step of a caller of `get_valid_access_token`.  The expiry
check reads the shared token dictionary; a caller that found the token within
the skew window proceeds to `_refresh_access_token`, which posts to the token
endpoint using the shared dictionary as it is at that later moment.  The code
takes no lock between the two steps. -/
def threadStep (now : Int) (resp : RefreshResp) (s : Shared) (pc : PC) : Shared × PC :=
  match pc with
  | .start =>
    match s.st with
    | none => (s, .done)
    | some tk =>
      match tk.expires_at with
      | some exp => if exp - 300 ≤ now then (s, .refreshing) else (s, .done)
      | none => (s, .done)
  | .refreshing =>
    match s.st with
    | some tk =>
      match refresh_access_token tk now resp with
      | (some tk2, c) => ({ st := some tk2, count := s.count + c }, .done)
      | (none, c) => ({ s with count := s.count + c }, .done)
    | none => (s, .done)
  | .done => (s, .done)

/-- Run two concurrent callers of `get_valid_access_token` under an explicit
schedule: `false` steps the first caller, `true` the second. -/
def runSched (now : Int) (resp : RefreshResp) :
    List Bool → Shared → PC → PC → Shared
  | [], s, _, _ => s
  | t :: ts, s, p0, p1 =>
    if t then
      runSched now resp ts (threadStep now resp s p1).1 p0 (threadStep now resp s p1).2
    else
      runSched now resp ts (threadStep now resp s p0).1 (threadStep now resp s p0).2 p1

theorem subIter_match {cs g1 d g2 rest2 : List Char} (new : List Char)
    (h : matchIterAt cs = some (g1, d, g2, rest2)) :
    subIter new cs = g1 ++ new ++ g2 ++ subIter new rest2 := by
  cases cs with
  | nil => exact absurd h (by simp [matchIterAt, dropLit])
  | cons c rest =>
    conv_lhs => unfold subIter
    split
    · rename_i a b c' r heq
      rw [h] at heq
      simp only [Option.some.injEq, Prod.mk.injEq] at heq
      obtain ⟨h1, h2, h3, h4⟩ := heq
      rw [h1, h3, h4]
    · rename_i heq
      rw [h] at heq
      exact absurd heq (by simp)

theorem subIter_none {c : Char} {rest : List Char} (new : List Char)
    (h : matchIterAt (c :: rest) = none) :
    subIter new (c :: rest) = c :: subIter new rest := by
  conv_lhs => unfold subIter
  split
  · rename_i a b c' r heq
    rw [h] at heq
    exact absurd heq (by simp)
  · rfl

theorem subIter_nil (new : List Char) : subIter new [] = [] := by
  conv_lhs => unfold subIter

theorem subIter_no_match (new : List Char) :
    ∀ cs, hasMatch cs = false → subIter new cs = cs := by
  intro cs
  induction cs with
  | nil => intro _; exact subIter_nil new
  | cons c rest ih =>
    intro h
    simp only [hasMatch, Bool.or_eq_false_iff] at h
    have hm : matchIterAt (c :: rest) = none := by
      cases hx : matchIterAt (c :: rest) with
      | none => rfl
      | some v => rw [hx] at h; simp at h
    rw [subIter_none new hm, ih h.2]

/-- Claim C3: a cached credential whose `expires_at` is more than the 5-minute
skew in the future makes `get_valid_access_token` return the cached access
token, leave the token cache unchanged, and issue no refresh request. -/
theorem get_valid_token_fresh (tk : Tokens) (now exp : Int) (resp : RefreshResp)
    (he : tk.expires_at = some exp) (hfresh : now < exp - 300) :
    get_valid_access_token (some tk) now resp = (some tk, tk.access_token, 0) := by
  simp only [get_valid_access_token, he]
  rw [if_neg (by omega)]

/-- Witness for `get_valid_token_fresh` at a concrete fresh credential. -/
theorem get_valid_token_fresh_witness :
    (Tokens.mk (some "a") (some "r") (some 1000)).expires_at = some 1000 ∧
    (0 : Int) < 1000 - 300 ∧
    get_valid_access_token (some (Tokens.mk (some "a") (some "r") (some 1000))) 0
        (RefreshResp.httpErr 500)
      = (some (Tokens.mk (some "a") (some "r") (some 1000)), some "a", 0) :=
  ⟨rfl, by decide,
   get_valid_token_fresh (Tokens.mk (some "a") (some "r") (some 1000)) 0 1000
     (RefreshResp.httpErr 500) rfl (by decide)⟩

/-- Claim C4, counterexample: with an empty token cache the call returns the
Python value `None` without signalling any error, and after a failed refresh
attempt it returns `None` while leaving the cached credential exactly as it
was (one refresh HTTP request was issued, the cache is not invalidated). -/
theorem get_valid_token_silent_none :
    get_valid_access_token none 5 (RefreshResp.httpErr 500) = (none, none, 0) ∧
    get_valid_access_token (some (Tokens.mk (some "a") (some "r") (some 0))) 1000
        (RefreshResp.httpErr 500)
      = (some (Tokens.mk (some "a") (some "r") (some 0)), none, 1) :=
  ⟨rfl, rfl⟩

/-- Claim C4, amended: `get_valid_access_token` returns the absent value
`None` (it raises nothing) when the token cache is empty, and when a
triggered refresh attempt fails; in the refresh-failure case the cached
credential is left unchanged, not invalidated. -/
theorem get_valid_token_failure_modes (tk : Tokens) (now exp : Int) (resp : RefreshResp)
    (he : tk.expires_at = some exp) (hwin : exp - 300 ≤ now)
    (hfail : (refresh_access_token tk now resp).1 = none) :
    get_valid_access_token none now resp = (none, none, 0) ∧
    get_valid_access_token (some tk) now resp =
      (some tk, none, (refresh_access_token tk now resp).2) := by
  refine ⟨rfl, ?_⟩
  simp only [get_valid_access_token, he, if_pos hwin]
  rcases hrc : refresh_access_token tk now resp with ⟨r, c⟩
  rw [hrc] at hfail
  simp only at hfail
  rw [hfail]

/-- Witness for `get_valid_token_failure_modes` at a concrete expired
credential whose refresh request is answered with a 500. -/
theorem get_valid_token_failure_modes_witness :
    (Tokens.mk (some "a") (some "r") (some 0)).expires_at = some 0 ∧
    ((0 : Int) - 300 ≤ 1000) ∧
    (refresh_access_token (Tokens.mk (some "a") (some "r") (some 0)) 1000
      (RefreshResp.httpErr 500)).1 = none ∧
    (get_valid_access_token none 1000 (RefreshResp.httpErr 500) = (none, none, 0) ∧
     get_valid_access_token (some (Tokens.mk (some "a") (some "r") (some 0))) 1000
         (RefreshResp.httpErr 500)
       = (some (Tokens.mk (some "a") (some "r") (some 0)), none,
          (refresh_access_token (Tokens.mk (some "a") (some "r") (some 0)) 1000
            (RefreshResp.httpErr 500)).2)) :=
  ⟨rfl, by decide, rfl,
   get_valid_token_failure_modes (Tokens.mk (some "a") (some "r") (some 0)) 1000 0
     (RefreshResp.httpErr 500) rfl (by decide) rfl⟩

/-- Claim C2, counterexample: a non-404 non-2xx response (500) on the first
status-endpoint pattern is not surfaced as an error: `get_job_state` stops
trying further patterns and silently returns the state string "unknown",
even though the second pattern would have reported `completed`. -/
theorem get_job_state_fatal_becomes_unknown :
    get_job_state
      [HttpResp.resp 500 ⟨none, none, none, 0⟩,
       HttpResp.resp 200 ⟨some "completed", none, none, 0⟩,
       HttpResp.resp 200 ⟨some "completed", none, none, 0⟩] = "unknown" := rfl

/-- Claim C2, amended: within one poll attempt a 404 on a status-endpoint
pattern is not fatal and the next pattern is tried, while any other non-2xx
response aborts the remaining patterns and makes `get_job_state` return the
state string "unknown"; no error is raised. -/
theorem get_job_state_pattern_policy (b : JobData) (rest : List HttpResp) (s : Nat)
    (h200 : s ≠ 200) (h404 : s ≠ 404) :
    get_job_state (HttpResp.resp 404 b :: rest) = get_job_state rest ∧
    get_job_state (HttpResp.resp s b :: rest) = "unknown" := by
  constructor
  · simp [get_job_state]
  · simp only [get_job_state]
    rw [if_neg (by simpa using h200), if_neg (by simpa using h404)]

/-- Witness for `get_job_state_pattern_policy` at status 500 with a completed
body waiting on the next pattern. -/
theorem get_job_state_pattern_policy_witness :
    (500 : Nat) ≠ 200 ∧ (500 : Nat) ≠ 404 ∧
    (get_job_state
        (HttpResp.resp 404 ⟨none, none, none, 0⟩ ::
          [HttpResp.resp 200 ⟨some "completed", none, none, 0⟩])
      = get_job_state [HttpResp.resp 200 ⟨some "completed", none, none, 0⟩] ∧
     get_job_state
        (HttpResp.resp 500 ⟨none, none, none, 0⟩ ::
          [HttpResp.resp 200 ⟨some "completed", none, none, 0⟩])
      = "unknown") :=
  ⟨by decide, by decide,
   get_job_state_pattern_policy ⟨none, none, none, 0⟩
     [HttpResp.resp 200 ⟨some "completed", none, none, 0⟩] 500
     (by decide) (by decide)⟩

/-- Claim C8: driver results of a trial are collected independently — with the
hosted driver's task raising while the cluster and local drivers succeed, the
trial's result map holds the two successful values and `None` for the failed
driver; a driver's result depends only on its own task's outcome; and the
orchestrator records a full-length result list over all trials, every trial's
entry being that trial's own result map. -/
theorem trial_collects_independently (out : Nat → Env → TaskOutcome) (iters : List Nat)
    (i a c : Nat)
    (hA : out i Env.casl = TaskOutcome.value (some a))
    (hB : out i Env.viya = TaskOutcome.raised)
    (hC : out i Env.local = TaskOutcome.value (some c)) :
    run_iteration_benchmark (out i) Env.casl = some a ∧
    run_iteration_benchmark (out i) Env.viya = none ∧
    run_iteration_benchmark (out i) Env.local = some c ∧
    (∀ e, (benchmark_results iters out e).length = iters.length) ∧
    (∀ o o' : Env → TaskOutcome, ∀ e, o e = o' e →
      run_iteration_benchmark o e = run_iteration_benchmark o' e) ∧
    (∀ e j, j < iters.length →
      (benchmark_results iters out e)[j]? = some (run_iteration_benchmark (out j) e)) := by
  refine ⟨?_, ?_, ?_, ?_, ?_, ?_⟩
  · simp [run_iteration_benchmark, hA]
  · simp [run_iteration_benchmark, hB]
  · simp [run_iteration_benchmark, hC]
  · intro e; simp [benchmark_results]
  · intro o o' e h; simp [run_iteration_benchmark, h]
  · intro e j hj
    simp [benchmark_results, List.getElem?_map, List.getElem?_range, hj]

/-- Witness for `trial_collects_independently` on a concrete two-trial run
whose hosted driver raises in trial 0. -/
theorem trial_collects_independently_witness :
    (outcomesOf (TaskOutcome.value (some 2)) TaskOutcome.raised
        (TaskOutcome.value (some 3)) Env.casl = TaskOutcome.value (some 2)) ∧
    (outcomesOf (TaskOutcome.value (some 2)) TaskOutcome.raised
        (TaskOutcome.value (some 3)) Env.viya = TaskOutcome.raised) ∧
    (outcomesOf (TaskOutcome.value (some 2)) TaskOutcome.raised
        (TaskOutcome.value (some 3)) Env.local = TaskOutcome.value (some 3)) ∧
    (run_iteration_benchmark (outcomesOf (TaskOutcome.value (some 2)) TaskOutcome.raised
        (TaskOutcome.value (some 3))) Env.casl = some 2 ∧
     run_iteration_benchmark (outcomesOf (TaskOutcome.value (some 2)) TaskOutcome.raised
        (TaskOutcome.value (some 3))) Env.viya = none ∧
     run_iteration_benchmark (outcomesOf (TaskOutcome.value (some 2)) TaskOutcome.raised
        (TaskOutcome.value (some 3))) Env.local = some 3 ∧
     (∀ e, (benchmark_results [1, 10]
        (fun _ => outcomesOf (TaskOutcome.value (some 2)) TaskOutcome.raised
          (TaskOutcome.value (some 3))) e).length = [1, 10].length) ∧
     (∀ o o' : Env → TaskOutcome, ∀ e, o e = o' e →
       run_iteration_benchmark o e = run_iteration_benchmark o' e) ∧
     (∀ e j, j < [1, 10].length →
       (benchmark_results [1, 10]
          (fun _ => outcomesOf (TaskOutcome.value (some 2)) TaskOutcome.raised
            (TaskOutcome.value (some 3))) e)[j]?
         = some (run_iteration_benchmark (outcomesOf (TaskOutcome.value (some 2))
            TaskOutcome.raised (TaskOutcome.value (some 3))) e))) :=
  ⟨rfl, rfl, rfl,
   trial_collects_independently
     (fun _ => outcomesOf (TaskOutcome.value (some 2)) TaskOutcome.raised
       (TaskOutcome.value (some 3))) [1, 10] 0 2 3 rfl rfl rfl⟩

theorem foldl_update_backup (l : List Nat) (fs : FS) :
    (l.foldl (fun f n => update_iteration_count n f) fs).backup = fs.backup := by
  induction l generalizing fs with
  | nil => rfl
  | cons x xs ih => rw [List.foldl_cons, ih]; rfl

/-- Claim C7: whatever trials run and whether the body finishes normally or an
unhandled exception escapes after any number of trial mutations, the setup
file's content after `run_all_benchmarks` is byte-identical to its content
before the run, and the backup file has been consumed. -/
theorem config_restored_on_every_exit (iters : List Nat) (failAfter : Option Nat)
    (fs0 : FS) :
    (run_all_benchmarks iters failAfter fs0).1 = ⟨fs0.setup, none⟩ := by
  have hF : ((match failAfter with
      | none => iters
      | some k => iters.take k).foldl
        (fun f n => update_iteration_count n f) (backup_setup_file fs0)).backup
      = some fs0.setup := by
    rw [foldl_update_backup]
    rfl
  simp only [run_all_benchmarks]
  simp only [restore_setup_file, hF]

/-- Claim C5, counterexample: in `run_base_local` the timed-out execution and
the non-zero-exit execution produce the very same result value `None` — the
two outcomes are conflated. -/
theorem run_base_local_conflates_timeout_and_failure :
    run_base_local (fun _ => false) (fun _ => ExecOutcome.timedOut) 7 = none ∧
    run_base_local (fun _ => false) (fun _ => ExecOutcome.finished 3) 7 = none ∧
    run_base_local (fun _ => false) (fun _ => ExecOutcome.timedOut) 7 =
      run_base_local (fun _ => false) (fun _ => ExecOutcome.finished 3) 7 :=
  ⟨rfl, rfl, rfl⟩

/-- Claim C5, amended: `run_base_local` yields the elapsed time on exit code
0 and `None` both on timeout and on a non-zero exit code (the two are
conflated); `submit_local_sas_program`, by contrast, raises the distinct
exceptions `TimeoutError` and `CalledProcessError`, and returns a completed
result only on exit code 0. -/
theorem local_outcome_classification (pe : String → Bool)
    (l1 l2 l3 : String → ExecOutcome) (t ems : Nat) (rc : Int)
    (h1 : l1 (findSasExe pe) = ExecOutcome.timedOut)
    (h2 : l2 (findSasExe pe) = ExecOutcome.finished rc) (hrc : rc ≠ 0)
    (h3 : l3 (findSasExe pe) = ExecOutcome.finished 0)
    (hp : pe localProgramFile = true) (hx : pe mainSasExe = true)
    (hm1 : l1 mainSasExe = ExecOutcome.timedOut)
    (hm2 : l2 mainSasExe = ExecOutcome.finished rc)
    (hm3 : l3 mainSasExe = ExecOutcome.finished 0) :
    run_base_local pe l1 t = none ∧
    run_base_local pe l2 t = none ∧
    run_base_local pe l3 t = some t ∧
    submit_local_sas_program pe l1 ems = Except.error LocalError.timeoutError ∧
    submit_local_sas_program pe l2 ems =
      Except.error (LocalError.calledProcessError rc) ∧
    submit_local_sas_program pe l3 ems = Except.ok ⟨"completed", ems, 0⟩ ∧
    LocalError.timeoutError ≠ LocalError.calledProcessError rc := by
  refine ⟨?_, ?_, ?_, ?_, ?_, ?_, by simp⟩
  · simp [run_base_local, h1]
  · simp [run_base_local, h2, hrc]
  · simp [run_base_local, h3]
  · simp [submit_local_sas_program, hp, hx, hm1]
  · simp [submit_local_sas_program, hp, hx, hm2, hrc]
  · simp [submit_local_sas_program, hp, hx, hm3]

/-- Witness for `local_outcome_classification` with every path present and a
concrete exit code 3. -/
theorem local_outcome_classification_witness :
    ((fun _ => ExecOutcome.timedOut : String → ExecOutcome)
        (findSasExe (fun _ => true)) = ExecOutcome.timedOut) ∧
    ((fun _ => ExecOutcome.finished 3 : String → ExecOutcome)
        (findSasExe (fun _ => true)) = ExecOutcome.finished 3) ∧
    ((3 : Int) ≠ 0) ∧
    ((fun _ => ExecOutcome.finished 0 : String → ExecOutcome)
        (findSasExe (fun _ => true)) = ExecOutcome.finished 0) ∧
    (run_base_local (fun _ => true) (fun _ => ExecOutcome.timedOut) 7 = none ∧
     run_base_local (fun _ => true) (fun _ => ExecOutcome.finished 3) 7 = none ∧
     run_base_local (fun _ => true) (fun _ => ExecOutcome.finished 0) 7 = some 7 ∧
     submit_local_sas_program (fun _ => true) (fun _ => ExecOutcome.timedOut) 9 =
       Except.error LocalError.timeoutError ∧
     submit_local_sas_program (fun _ => true) (fun _ => ExecOutcome.finished 3) 9 =
       Except.error (LocalError.calledProcessError 3) ∧
     submit_local_sas_program (fun _ => true) (fun _ => ExecOutcome.finished 0) 9 =
       Except.ok ⟨"completed", 9, 0⟩ ∧
     LocalError.timeoutError ≠ LocalError.calledProcessError 3) :=
  ⟨rfl, rfl, by decide, rfl,
   local_outcome_classification (fun _ => true)
     (fun _ => ExecOutcome.timedOut) (fun _ => ExecOutcome.finished 3)
     (fun _ => ExecOutcome.finished 0) 7 9 3
     rfl rfl (by decide) rfl rfl rfl rfl rfl rfl⟩

/-- Claim C6, counterexample: with no candidate path present and the bare
command `sas` failing to launch, `run_base_local` does not raise any
`ExecutableNotFoundError`-style exception — the launch failure is caught and
the driver returns the plain absent value `None`. -/
theorem local_missing_exe_returns_none :
    findSasExe (fun _ => false) = "sas" ∧
    run_base_local (fun _ => false) (fun _ => ExecOutcome.launchError) 5 = none :=
  ⟨rfl, rfl⟩

/-- Claim C6, amended: the benchmark's local driver probes the ordered
candidate path list (the first existing path wins) and falls back to the bare
command `sas`; when nothing can be launched the failure is caught and the
driver returns `None` instead of raising, and the trial still completes with
the cluster and hosted results populated; `submit_local_sas_program`, which
checks only one hardcoded executable path, raises `FileNotFoundError` for it
when absent. -/
theorem local_exe_resolution (pe : String → Bool) (launch : String → ExecOutcome)
    (t x y : Nat)
    (hnone : sas_paths.find? pe = none)
    (hfail : launch "sas" = ExecOutcome.launchError) :
    findSasExe pe = "sas" ∧
    run_base_local pe launch t = none ∧
    (∀ (pe' : String → Bool) (p : String),
       sas_paths.find? pe' = some p → findSasExe pe' = p) ∧
    (pe localProgramFile = true →
      submit_local_sas_program pe launch 0 =
        Except.error (LocalError.fileNotFound mainSasExe)) ∧
    run_iteration_benchmark (outcomesOf (TaskOutcome.value (some x))
        (TaskOutcome.value (some y)) (TaskOutcome.value (run_base_local pe launch t)))
      Env.casl = some x ∧
    run_iteration_benchmark (outcomesOf (TaskOutcome.value (some x))
        (TaskOutcome.value (some y)) (TaskOutcome.value (run_base_local pe launch t)))
      Env.viya = some y ∧
    run_iteration_benchmark (outcomesOf (TaskOutcome.value (some x))
        (TaskOutcome.value (some y)) (TaskOutcome.value (run_base_local pe launch t)))
      Env.local = none := by
  have hexe : findSasExe pe = "sas" := by
    simp [findSasExe, hnone]
  have hrun : run_base_local pe launch t = none := by
    simp [run_base_local, hexe, hfail]
  have hmain : pe mainSasExe = false := by
    have := List.find?_eq_none.mp hnone mainSasExe (by simp [sas_paths, mainSasExe])
    simpa using this
  refine ⟨hexe, hrun, ?_, ?_, rfl, rfl, ?_⟩
  · intro pe' p hp
    simp [findSasExe, hp]
  · intro hprog
    simp [submit_local_sas_program, hprog, hmain]
  · simp [run_iteration_benchmark, outcomesOf, hrun]

/-- Witness for `local_exe_resolution`: nothing on disk resolves and even the
bare command fails to launch. -/
theorem local_exe_resolution_witness :
    sas_paths.find? (fun _ => false) = none ∧
    ((fun _ => ExecOutcome.launchError : String → ExecOutcome) "sas"
      = ExecOutcome.launchError) ∧
    (findSasExe (fun _ => false) = "sas" ∧
     run_base_local (fun _ => false) (fun _ => ExecOutcome.launchError) 6 = none ∧
     (∀ (pe' : String → Bool) (p : String),
        sas_paths.find? pe' = some p → findSasExe pe' = p) ∧
     ((fun _ => false : String → Bool) localProgramFile = true →
       submit_local_sas_program (fun _ => false) (fun _ => ExecOutcome.launchError) 0 =
         Except.error (LocalError.fileNotFound mainSasExe)) ∧
     run_iteration_benchmark (outcomesOf (TaskOutcome.value (some 4))
         (TaskOutcome.value (some 8))
         (TaskOutcome.value (run_base_local (fun _ => false)
           (fun _ => ExecOutcome.launchError) 6)))
       Env.casl = some 4 ∧
     run_iteration_benchmark (outcomesOf (TaskOutcome.value (some 4))
         (TaskOutcome.value (some 8))
         (TaskOutcome.value (run_base_local (fun _ => false)
           (fun _ => ExecOutcome.launchError) 6)))
       Env.viya = some 8 ∧
     run_iteration_benchmark (outcomesOf (TaskOutcome.value (some 4))
         (TaskOutcome.value (some 8))
         (TaskOutcome.value (run_base_local (fun _ => false)
           (fun _ => ExecOutcome.launchError) 6)))
       Env.local = none) :=
  ⟨rfl, rfl,
   local_exe_resolution (fun _ => false) (fun _ => ExecOutcome.launchError) 6 4 8
     rfl rfl⟩

/-- Claim C10, counterexample: two callers of `get_valid_access_token` whose
expiry checks both run before either refresh does (schedule first-checks,
then-refreshes) issue two refresh HTTP requests in total — the code holds no
lock and shares no in-flight refresh. -/
theorem concurrent_refresh_not_single_flight :
    (runSched 1000 (RefreshResp.ok ⟨some "n", some "r2", some 3600⟩)
      [false, true, false, true]
      ⟨some ⟨some "a", some "r", some 0⟩, 0⟩ PC.start PC.start).count = 2 := rfl

/-- Claim C10, amended: refresh attempts are not serialized — every caller
whose expiry check ran before any refresh completed issues its own refresh
request (two callers, two requests under the interleaved schedule), and a
caller is spared a duplicate request only when a completed refresh already
advanced `expires_at` before its check (the sequential schedule issues one). -/
theorem refresh_race_behaviour :
    (runSched 1000 (RefreshResp.ok ⟨some "n", some "r2", some 3600⟩)
      [false, true, false, true]
      ⟨some ⟨some "a", some "r", some 0⟩, 0⟩ PC.start PC.start).count = 2 ∧
    (runSched 1000 (RefreshResp.ok ⟨some "n", some "r2", some 3600⟩)
      [false, false, true, true]
      ⟨some ⟨some "a", some "r", some 0⟩, 0⟩ PC.start PC.start).count = 1 :=
  ⟨rfl, rfl⟩

theorem waitLoop_no_terminal (net : Nat → Nat → HttpResp) (fuel : Nat) :
    ∀ r, (∀ k, k < fuel → scanEndpoints (mkRound net (r + k)) = none) →
      waitLoop net fuel r = (none, fuel) := by
  induction fuel with
  | zero => intro r _; rfl
  | succ n ih =>
    intro r h
    have h0 : scanEndpoints (mkRound net r) = none := by
      simpa using h 0 (Nat.succ_pos n)
    have hrec : waitLoop net n (r + 1) = (none, n) := by
      refine ih (r + 1) (fun k hk => ?_)
      have := h (k + 1) (by omega)
      simpa [Nat.add_assoc, Nat.add_comm 1 k] using this
    simp [waitLoop, h0, hrec]

theorem caslLoop_no_terminal (states : Nat → String) (fuel : Nat)
    (h : ∀ k, caslTerminal (states k) = false) :
    ∀ r, caslLoop states fuel r = (none, fuel) := by
  induction fuel with
  | zero => intro r; rfl
  | succ n ih =>
    intro r
    have hr := h r
    simp only [caslTerminal, Bool.or_eq_false_iff] at hr
    simp [caslLoop, hr.1, hr.2, ih]

/-- Claim C1, counterexample: with a job that is still `running` at both
in-deadline poll rounds of a 4-second timeout, the value
`wait_for_job_completion` returns depends on what the one post-deadline
attempt observes: a 200 response carrying a `completed` body is returned
as-is (indistinguishable from a successful completion), while a 500 response
yields the empty dictionary — the function does not return a fixed timed-out
outcome regardless of the final attempt. -/
theorem wait_timeout_result_depends_on_final_poll :
    wait_for_job_completion
      (fun k _ => if k < 2 then HttpResp.resp 200 ⟨some "running", none, none, 0⟩
                  else HttpResp.resp 200 ⟨some "completed", none, none, 7⟩) 4
      = (some ⟨some "completed", none, none, 7⟩, 3) ∧
    wait_for_job_completion
      (fun k _ => if k < 2 then HttpResp.resp 200 ⟨some "running", none, none, 0⟩
                  else HttpResp.resp 500 ⟨none, none, none, 0⟩) 4
      = (none, 3) := by
  constructor <;> rfl

/-- Claim C1, amended: when no poll round within the timeout observes a
terminal state, `wait_for_job_completion` performs exactly one additional
poll attempt (of the first endpoint pattern) after the deadline and returns
that attempt's JSON body if its status is 200 and the empty dictionary
otherwise — the outcome depends on the final attempt; the inline polling loop
of `run_casl_cas` instead performs no attempt after the deadline and returns
the fixed timed-out value `None` after its in-deadline polls. -/
theorem poll_timeout_behaviour (net : Nat → Nat → HttpResp) (timeout : Nat)
    (states : Nat → String) (ti iv : Nat)
    (hwait : ∀ k, k < waitRounds timeout → scanEndpoints (mkRound net k) = none)
    (hcasl : ∀ k, caslTerminal (states k) = false) :
    wait_for_job_completion net timeout =
      ((match net (waitRounds timeout) 0 with
        | HttpResp.resp s body => if s == 200 then some body else none
        | HttpResp.netError => none),
       waitRounds timeout + 1) ∧
    run_casl_cas_poll states ti iv = (none, (ti + iv - 1) / iv) := by
  constructor
  · have hl : waitLoop net (waitRounds timeout) 0 = (none, waitRounds timeout) := by
      refine waitLoop_no_terminal net (waitRounds timeout) 0 (fun k hk => ?_)
      simpa using hwait k hk
    simp only [wait_for_job_completion, hl]
    cases net (waitRounds timeout) 0 <;> simp
  · simp [run_casl_cas_poll, caslLoop_no_terminal states _ hcasl]

/-- Witness for `poll_timeout_behaviour`: a job that always reports
`running`, a 4-second timeout for the completion wait and a 10-second
timeout with 5-second interval for the inline loop. -/
theorem poll_timeout_behaviour_witness :
    (∀ k, k < waitRounds 4 → scanEndpoints (mkRound
      (fun (_ _ : Nat) => HttpResp.resp 200 ⟨some "running", none, none, 0⟩) k) = none) ∧
    (∀ k : Nat, caslTerminal ((fun (_ : Nat) => "running") k) = false) ∧
    (wait_for_job_completion
        (fun (_ _ : Nat) => HttpResp.resp 200 ⟨some "running", none, none, 0⟩) 4 =
      ((match (fun (_ _ : Nat) => HttpResp.resp 200
            (JobData.mk (some "running") none none 0)) (waitRounds 4) 0 with
        | HttpResp.resp s body => if s == 200 then some body else none
        | HttpResp.netError => none),
       waitRounds 4 + 1) ∧
     run_casl_cas_poll (fun (_ : Nat) => "running") 10 5 = (none, (10 + 5 - 1) / 5)) :=
  ⟨by decide, fun _ => rfl,
   poll_timeout_behaviour
     (fun (_ _ : Nat) => HttpResp.resp 200 ⟨some "running", none, none, 0⟩) 4
     (fun (_ : Nat) => "running") 10 5 (by decide) (fun _ => rfl)⟩

/-- Claim C9: rewriting the iteration count touches only the digits of the
matched `%let iter = <number>;` assignment — for content whose single match
of the pattern starts after an unmatched prefix, the rewritten content keeps
every byte of the prefix, of both capture groups and of the tail, replacing
only the digit run with the new value; and content without any occurrence of
the pattern is left entirely unchanged. -/
theorem update_iteration_frame (new pre g1 d g2 post : List Char)
    (hm : matchIterAt (g1 ++ d ++ g2 ++ post) = some (g1, d, g2, post))
    (hpre : ∀ i, i < pre.length →
      matchIterAt ((pre ++ (g1 ++ d ++ g2 ++ post)).drop i) = none)
    (hpost : hasMatch post = false) :
    subIter new (pre ++ (g1 ++ d ++ g2 ++ post)) = pre ++ (g1 ++ new ++ g2 ++ post) ∧
    (∀ cs, hasMatch cs = false → subIter new cs = cs) := by
  refine ⟨?_, subIter_no_match new⟩
  induction pre with
  | nil =>
    simp only [List.nil_append]
    rw [subIter_match new hm, subIter_no_match new post hpost]
  | cons c pre' ih =>
    have h0 : matchIterAt (c :: (pre' ++ (g1 ++ d ++ g2 ++ post))) = none := by
      have := hpre 0 (by simp)
      simpa using this
    have hpre' : ∀ i, i < pre'.length →
        matchIterAt ((pre' ++ (g1 ++ d ++ g2 ++ post)).drop i) = none := by
      intro i hi
      have := hpre (i + 1) (by simp; omega)
      simpa using this
    simp only [List.cons_append]
    rw [subIter_none new h0, ih hpre']

/-- Witness for `update_iteration_frame` on the concrete content
`* x;\n%let iter = 100;\nrun;` rewritten to iteration count 7. -/
theorem update_iteration_frame_witness :
    matchIterAt ("%let iter = ".data ++ "100".data ++ ";".data ++ "\nrun;".data)
      = some ("%let iter = ".data, "100".data, ";".data, "\nrun;".data) ∧
    (∀ i, i < "* x;\n".data.length →
      matchIterAt ((("* x;\n".data ++ ("%let iter = ".data ++ "100".data ++ ";".data ++
        "\nrun;".data))).drop i) = none) ∧
    hasMatch "\nrun;".data = false ∧
    (subIter "7".data ("* x;\n".data ++ ("%let iter = ".data ++ "100".data ++ ";".data ++
        "\nrun;".data))
      = "* x;\n".data ++ ("%let iter = ".data ++ "7".data ++ ";".data ++ "\nrun;".data) ∧
     (∀ cs, hasMatch cs = false → subIter "7".data cs = cs)) :=
  ⟨rfl,
   by
     intro i hi
     have h5 : ("* x;\n".data).length = 5 := rfl
     rw [h5] at hi
     interval_cases i <;> rfl,
   rfl,
   update_iteration_frame "7".data "* x;\n".data "%let iter = ".data "100".data
     ";".data "\nrun;".data rfl
     (by
       intro i hi
       have h5 : ("* x;\n".data).length = 5 := rfl
       rw [h5] at hi
       interval_cases i <;> rfl)
     rfl⟩
